import Mathlib

/-!
Verification of the orchestration control plane of the
`Langgraph-bi-agent-orchestrator` repository, as a shallow embedding in
Lean 4.  Pure Python functions become Lean functions; stateful code is
modelled by explicit state passing; calls that may raise a Python
exception are modelled as `Except String α`; calls into external
collaborators (OpenAI / DeepSeek clients, `json.loads`, `hashlib`,
the web-research tool, the trained routing classifier) are parameters
of the embedding (oracles), since their bodies are not part of the
repository core.

Python string primitives used by the source (`str.lower`, `str.strip`,
`str.replace`, the substring operator `in`) are re-implemented here on
`List Char` so that every definition is executable by the kernel.
-/

namespace Py

/-- Python `str.lower()` (ASCII-faithful, which covers every keyword the
source matches on). -/
def lower (s : String) : String :=
  ⟨s.data.map Char.toLower⟩

/-- Python `str.upper()` (used by `ConversationMemory.get_context_string`). -/
def upper (s : String) : String :=
  ⟨s.data.map Char.toUpper⟩

/-- Python `str.strip()` with no argument: remove leading and trailing
whitespace. -/
def strip (s : String) : String :=
  ⟨((s.data.dropWhile Char.isWhitespace).reverse.dropWhile Char.isWhitespace).reverse⟩

/-- Whether `pat` is a prefix of `l` (helper for the Python substring
operator). -/
def isPre : List Char → List Char → Bool
  | [], _ => true
  | _ :: _, [] => false
  | a :: pat, b :: l => a == b && isPre pat l

/-- Python `needle in hay` on strings: substring containment. -/
def strIn (needle hay : List Char) : Bool :=
  match hay with
  | [] => needle.isEmpty
  | _ :: rest => isPre needle hay || strIn needle rest

/-- Python `str.replace(pat, repl)`: leftmost, non-overlapping replacement
of every occurrence (on character lists; the source only replaces
non-empty patterns).  Structural recursion on a fuel bounded by the
length of the scanned list, so the kernel can evaluate it; each step
consumes at least one character, so fuel `l.length` always suffices. -/
def listReplaceFuel (pat repl : List Char) : Nat → List Char → List Char
  | 0, l => l
  | _ + 1, [] => []
  | n + 1, c :: rest =>
    if pat ≠ [] ∧ pat.isPrefixOf (c :: rest) then
      repl ++ listReplaceFuel pat repl n (rest.drop (pat.length - 1))
    else
      c :: listReplaceFuel pat repl n rest

/-- Python `str.replace` lifted to `String`. -/
def replace (s pat repl : String) : String :=
  ⟨listReplaceFuel pat.data repl.data s.data.length s.data⟩

/-- Python truthiness of an optional string: `None` and `""` are falsy. -/
def truthyOptStr : Option String → Bool
  | none => false
  | some s => !(s == "")

end Py

/-! ### Conversation memory (`src/memory.py`)

`ConversationMemory` keeps a `deque(maxlen=max_messages)` of
role/content dictionaries.  The deque is modelled as a `List` ordered
oldest-to-newest; `append` on a full deque evicts from the left. -/

structure Message where
  role : String
  content : String
deriving DecidableEq, Repr

namespace ConversationMemory

/-- Embeds `ConversationMemory.add_message`: append the new turn, then
trim from the left down to the capacity `max_messages` (exactly the
semantics of `deque(maxlen=n).append`, including `maxlen=0`). -/
def add_message (max_messages : Nat) (messages : List Message) (role content : String) :
    List Message :=
  let l := messages ++ [⟨role, content⟩]
  l.drop (l.length - max_messages)

/-- Sequence of `add_message` calls, oldest first. -/
def add_all (max_messages : Nat) (init : List Message) (turns : List Message) : List Message :=
  turns.foldl (fun acc m => add_message max_messages acc m.role m.content) init

/-- Embeds `ConversationMemory.get_context_string`. -/
def get_context_string (messages : List Message) : String :=
  String.intercalate "\n\n" (messages.map (fun m => Py.upper m.role ++ ": " ++ m.content))

end ConversationMemory

/-! ### Cache layer (`src/cache.py`)

`FileCache` persists one JSON file per key holding
`{value, expires_at}`; it is modelled as an association list from the
(unhashed) key to the stored entry, with an explicit clock passed to
`get`/`set` in place of `time.time()` (the `md5` filename derivation is
an injective external primitive and is elided).  Values are the worker
response strings the orchestrator stores. -/

namespace FileCache

structure Entry where
  value : String
  expires_at : Nat
deriving DecidableEq, Repr

abbrev Store := List (String × Entry)

/-- Embeds `FileCache.set`: (over)write the entry for `key` with
expiry `now + ttl`. -/
def set (store : Store) (key value : String) (ttl now : Nat) : Store :=
  (key, ⟨value, now + ttl⟩) :: store.filter (fun kv => !(kv.1 == key))

/-- Embeds `FileCache.get`: absent file yields `None`; a live entry
(`expires_at > now`) yields its value; an expired entry is unlinked and
yields `None`. -/
def get (store : Store) (key : String) (now : Nat) : Option String × Store :=
  match store.lookup key with
  | none => (none, store)
  | some e =>
    if now < e.expires_at then (some e.value, store)
    else (none, store.filter (fun kv => !(kv.1 == key)))

end FileCache

namespace QueryCache

structure Stats where
  hits : Nat
  misses : Nat
  saves : Nat
deriving DecidableEq, Repr

/-- Embeds `QueryCache._make_key`.  `sha256hex16` stands for the external
primitive `hashlib.sha256(content.encode()).hexdigest()[:16]`; `pfx` is
the source's `prefix` argument (the cache category). -/
def make_key (sha256hex16 : String → String) (client_id : Option String)
    (pfx : String) (parts : List String) : String :=
  let content := String.intercalate "::" parts
  let content_hash := sha256hex16 content
  if Py.truthyOptStr client_id then
    "client:" ++ client_id.getD "" ++ ":" ++ pfx ++ ":" ++ content_hash
  else
    pfx ++ ":" ++ content_hash

/-- Python truthiness of `result` in `QueryCache._get`: `None` and the
empty string are falsy. -/
def truthyVal : Option String → Bool
  | none => false
  | some s => !(s == "")

/-- Embeds `QueryCache._get` over a file-cache backend (`backend = none`
models the caching-disabled state).  Returns the looked-up value
unchanged together with the updated hit/miss counters. -/
def get (backend : Option FileCache.Store) (now : Nat) (stats : Stats) (key : String) :
    Option String × Stats :=
  match backend with
  | none => (none, stats)
  | some store =>
    let result := (FileCache.get store key now).1
    if truthyVal result then (result, { stats with hits := stats.hits + 1 })
    else (result, { stats with misses := stats.misses + 1 })

end QueryCache

/-! ### Provider wrappers (`src/gpt5_wrapper.py`, `src/unified_llm.py`)

`GPT5Wrapper.generate` wraps the whole provider call in
`try/except Exception`, returning `f"Error generating response: {e}"` on
failure, so its embedding can only ever be `Except.ok`.  The underlying
OpenAI client call (`self.client.responses.create` plus text
extraction) is the oracle `client`.  `DeepSeekWrapper` is not part of
the sources; its `generate` is kept fully opaque as a fallible oracle,
matching the spec's provider call boundary. -/

namespace GPT5Wrapper

/-- Embeds `GPT5Wrapper.generate`: `try` the underlying client call,
`except Exception as e: return f"Error generating response: {str(e)}"`. -/
def generate (client : String → Except String String) (input_text : String) :
    Except String String :=
  match client input_text with
  | Except.ok t => Except.ok t
  | Except.error e => Except.ok ("Error generating response: " ++ e)

end GPT5Wrapper

namespace UnifiedLLM

/-- Underlying provider clients, as functions of the prompt.  A
`Except.error` result models the client raising. -/
structure ProviderClients where
  gpt5client : String → Except String String
  deepseek_chat : String → Except String String
  deepseek_reasoner : String → Except String String

/-- The keys of `UnifiedLLM._hybrid_routing`'s `routing_map`, in source
order; every one maps to the DeepSeek provider. -/
def hybridDeepseekAgents : List String :=
  ["research_synthesis", "financial", "market", "operations", "leadgen", "router", "synthesis"]

/-- Embeds `UnifiedLLM._hybrid_routing`: mapped agent types go to
DeepSeek, everything else (unknown or absent agent type) defaults to
GPT-5. -/
def hybrid_routing (agent_type : Option String) : String :=
  match agent_type with
  | some a => if hybridDeepseekAgents.contains a then "deepseek" else "gpt5"
  | none => "gpt5"

/-- Embeds `UnifiedLLM._select_model` (the provider component; the
concrete DeepSeek model object is resolved by `deepseekModel`). -/
def select_model (strategy : String) (agent_type : Option String) : String :=
  if strategy == "gpt5" then "gpt5"
  else if strategy == "deepseek" then "deepseek"
  else if strategy == "hybrid" then hybrid_routing agent_type
  else "gpt5"

/-- Which DeepSeek wrapper a DeepSeek-routed call uses: the reasoner for
`research_synthesis`, the chat model otherwise (both the `deepseek`
strategy branch and the hybrid `routing_map` agree on this). -/
def deepseekModel (agent_type : Option String) (c : ProviderClients) :
    String → Except String String :=
  if agent_type == some "research_synthesis" then c.deepseek_reasoner else c.deepseek_chat

/-- Embeds `UnifiedLLM.generate`: call the selected provider; in hybrid
mode, when the DeepSeek provider was selected and its call raises, retry
once against GPT-5 (whose wrapper itself never raises); otherwise
re-raise. -/
def generate (strategy : String) (agent_type : Option String) (c : ProviderClients)
    (prompt : String) : Except String String :=
  let provider := select_model strategy agent_type
  let hasGpt5 := strategy == "gpt5" || strategy == "hybrid"
  let attempt :=
    if provider == "gpt5" then GPT5Wrapper.generate c.gpt5client prompt
    else deepseekModel agent_type c prompt
  match attempt with
  | Except.ok t => Except.ok t
  | Except.error e =>
    if strategy == "hybrid" && provider == "deepseek" && hasGpt5 then
      GPT5Wrapper.generate c.gpt5client prompt
    else Except.error e

end UnifiedLLM

/-! ### Static-rules router (`src/orchestrator.py`)

`PrimaryOrchestrator.determine_agents_needed` matches fixed keyword
tables against the lowercased query and falls back to all workers when
nothing matches. -/

namespace PrimaryOrchestrator

structure AgentsNeeded where
  market : Bool
  operations : Bool
  financial : Bool
  leadgen : Bool
deriving DecidableEq, Repr

def market_keywords : List String :=
  ["market", "competition", "competitor", "industry", "trend", "customer segment",
   "target audience"]

def ops_keywords : List String :=
  ["process", "efficiency", "workflow", "operation", "optimize", "automate", "scale",
   "bottleneck"]

def financial_keywords : List String :=
  ["financial", "revenue", "cost", "profit", "roi", "budget", "pricing", "investment",
   "money"]

def leadgen_keywords : List String :=
  ["lead", "customer acquisition", "growth", "sales", "marketing", "funnel", "conversion",
   "acquire"]

/-- Python `any(keyword in query_lower for keyword in keywords)`. -/
def anyKeyword (keywords : List String) (query_lower : String) : Bool :=
  keywords.any (fun k => Py.strIn k.data query_lower.data)

/-- Embeds `PrimaryOrchestrator.determine_agents_needed`. -/
def determine_agents_needed (query : String) : AgentsNeeded :=
  let ql := Py.lower query
  let a : AgentsNeeded :=
    ⟨anyKeyword market_keywords ql, anyKeyword ops_keywords ql,
     anyKeyword financial_keywords ql, anyKeyword leadgen_keywords ql⟩
  if a.market || a.operations || a.financial || a.leadgen then a
  else ⟨true, true, true, true⟩

/-- The list `[k for k, v in agents_needed.items() if v]` (dict insertion
order `market, operations, financial, leadgen`). -/
def AgentsNeeded.consulted (a : AgentsNeeded) : List String :=
  (if a.market then ["market"] else []) ++
  (if a.operations then ["operations"] else []) ++
  (if a.financial then ["financial"] else []) ++
  (if a.leadgen then ["leadgen"] else [])

end PrimaryOrchestrator

/-! ### LangGraph orchestrator (`src/langgraph_orchestrator.py`)

The compiled state graph is linear
(router → research? → agents_parallel → synthesis), so it is embedded
as function composition over `AgentState`.  All provider, tool,
classifier and `json.loads` calls performed during one `orchestrate`
invocation are collected in `OrchOracles`. -/

namespace LangGraph

/-- The `AgentState` `TypedDict` fields the control flow reads or
writes (`research_findings` and `conversation_history` are carried
verbatim and elided; `web_research` is `none` for the falsy `{}` the
entry point installs). -/
structure AgentState where
  query : String
  agents_to_call : List String
  research_context : String
  market_analysis : String
  operations_audit : String
  financial_modeling : String
  lead_generation : String
  web_research : Option String
  synthesis : String
  use_memory : Bool
deriving DecidableEq, Repr

/-- External calls made during one orchestration:
`predict`/`predict_proba` are the trained classifier boundary,
`routerClient`/`synthClient` the GPT-5 client calls of the router and
synthesis nodes, `jsonParse` is `json.loads` restricted to JSON arrays
of strings (`none` models a raise or a non-list result), `research` is
`ResearchSynthesisAgent.synthesize` returning the research context,
`webResearch` is `WebResearchTool.execute`, and the four agent fields
are the awaited worker coroutines. -/
structure OrchOracles where
  predict : Except String (List String)
  predict_proba : Except String Unit
  routerClient : String → Except String String
  jsonParse : String → Option (List String)
  research : Except String String
  webResearch : Except String String
  market : Except String String
  operations : Except String String
  financial : Except String String
  leadgen : Except String String
  synthClient : String → Except String String

/-- Classifier-related state established by `LangGraphOrchestrator.__init__`
(`self.use_ml_routing` and whether `self.ml_router` is non-`None`). -/
structure RouterState where
  use_ml_routing : Bool
  ml_router : Bool
deriving DecidableEq, Repr

/-- Embeds the ML-routing part of `LangGraphOrchestrator.__init__`:
`ctor` is the `RoutingClassifier()` construction, `load` the
`.load("models/routing_classifier.pkl")` call.  A missing artifact or
any exception in the `try` block clears `use_ml_routing`; `ml_router`
stays set when only `load` raised (the assignment precedes it). -/
def ml_init (use_ml_requested artifact_exists : Bool)
    (ctor load : Except String Unit) : RouterState :=
  if use_ml_requested then
    if artifact_exists then
      match ctor with
      | Except.error _ => ⟨false, false⟩
      | Except.ok _ =>
        match load with
        | Except.ok _ => ⟨true, true⟩
        | Except.error _ => ⟨false, true⟩
    else ⟨false, false⟩
  else ⟨false, false⟩

def all_agents : List String := ["market", "operations", "financial", "leadgen"]

/-- The GPT-5 routing prompt built by `_router_node`. -/
def routing_prompt (query : String) : String :=
  "Analyze the following business query and determine which specialized agents should be consulted.\n\nAvailable agents:\n- market: Market research, trends, competition, market sizing, customer segmentation\n- operations: Process optimization, efficiency analysis, workflow improvement\n- financial: Financial projections, ROI calculations, revenue/cost analysis, pricing\n- leadgen: Customer acquisition, sales funnel, growth strategies, marketing\n\nQuery: " ++ query ++ "\n\nRespond with a JSON array of agent names that should be consulted. For comprehensive business decisions, include multiple relevant agents.\nExample: [\"market\", \"financial\", \"leadgen\"]\n\nOnly output the JSON array, nothing else."

/-- The semantic (GPT-5) routing path of `_router_node`: one generation
call, markdown code fences stripped, JSON-parsed; an empty parsed list
or any exception yields all agents. -/
def routerSemantic (client : String → Except String String)
    (jsonParse : String → Option (List String)) (query : String) : List String :=
  match GPT5Wrapper.generate client (routing_prompt query) with
  | Except.error _ => all_agents
  | Except.ok response =>
    let cleaned := Py.strip (Py.replace (Py.replace (Py.strip response) "```json" "") "```" "")
    match jsonParse cleaned with
    | none => all_agents
    | some agents => if agents.isEmpty then all_agents else agents

/-- Embeds `_router_node`: when ML routing is armed, ask the classifier
(`predict` then `predict_proba`); any classifier exception falls
through to the GPT-5 path for this call only.  The orchestrator state
is returned unchanged — `_router_node` never mutates
`self.use_ml_routing` or `self.ml_router`. -/
def routerNode (rst : RouterState) (o : OrchOracles) (query : String) :
    List String × RouterState :=
  if rst.use_ml_routing && rst.ml_router then
    match o.predict with
    | Except.ok agents =>
      match o.predict_proba with
      | Except.ok _ => (agents, rst)
      | Except.error _ => (routerSemantic o.routerClient o.jsonParse query, rst)
    | Except.error _ => (routerSemantic o.routerClient o.jsonParse query, rst)
  else (routerSemantic o.routerClient o.jsonParse query, rst)

/-- Embeds `_research_synthesis_node`: store the research context, or
the empty string when RAG is off or synthesis raises. -/
def researchSynthesisNode (enable_rag : Bool) (research : Except String String)
    (st : AgentState) : AgentState :=
  if !enable_rag then { st with research_context := "" }
  else
    match research with
    | Except.ok ctx => { st with research_context := ctx }
    | Except.error _ => { st with research_context := "" }

/-- Result of one gathered worker task under
`asyncio.gather(..., return_exceptions=True)`: an exception becomes the
string `f"Error: {str(result)}"`. -/
def taskResult : Except String String → String
  | Except.ok s => s
  | Except.error e => "Error: " ++ e

/-- The `output` dict zipped from `tasks.keys()` and the gathered
results, in task insertion order. -/
def parallelOutputs (o : OrchOracles) (agents : List String) : List (String × String) :=
  (if agents.contains "market" then [("market_analysis", taskResult o.market)] else []) ++
  (if agents.contains "operations" then [("operations_audit", taskResult o.operations)] else []) ++
  (if agents.contains "financial" then [("financial_modeling", taskResult o.financial)] else []) ++
  (if agents.contains "leadgen" then [("lead_generation", taskResult o.leadgen)] else [])

/-- Embeds `_execute_agents_parallel`: when the market agent is routed
and the state carries no (truthy) web research, the synchronous web
lookup runs first, outside the exception-isolated gather — its failure
raises out of the whole call. -/
def executeAgentsParallel (o : OrchOracles) (st : AgentState) :
    Except String (List (String × String)) :=
  if st.agents_to_call.contains "market" then
    match st.web_research with
    | some _ => Except.ok (parallelOutputs o st.agents_to_call)
    | none =>
      match o.webResearch with
      | Except.error e => Except.error e
      | Except.ok _ => Except.ok (parallelOutputs o st.agents_to_call)
  else Except.ok (parallelOutputs o st.agents_to_call)

/-- Python `results.get(key, "")`. -/
def lookupD (results : List (String × String)) (key : String) : String :=
  (results.lookup key).getD ""

/-- Embeds `_agents_parallel_node`: empty routing skips execution;
otherwise the four findings fields are filled from the gathered result
map, defaulting to the empty string. -/
def agentsParallelNode (o : OrchOracles) (st : AgentState) : Except String AgentState :=
  if st.agents_to_call.isEmpty then Except.ok st
  else
    match executeAgentsParallel o st with
    | Except.error e => Except.error e
    | Except.ok results =>
      Except.ok { st with
        market_analysis := lookupD results "market_analysis",
        operations_audit := lookupD results "operations_audit",
        financial_modeling := lookupD results "financial_modeling",
        lead_generation := lookupD results "lead_generation" }

/-- The `agent_outputs` list of `_synthesis_node`: one labeled block per
truthy (non-empty) findings field, in source order. -/
def agentOutputs (st : AgentState) : List String :=
  (if st.market_analysis = "" then [] else ["MARKET ANALYSIS:\n" ++ st.market_analysis]) ++
  (if st.operations_audit = "" then [] else ["OPERATIONS AUDIT:\n" ++ st.operations_audit]) ++
  (if st.financial_modeling = "" then [] else ["FINANCIAL ANALYSIS:\n" ++ st.financial_modeling]) ++
  (if st.lead_generation = "" then [] else ["LEAD GENERATION STRATEGY:\n" ++ st.lead_generation])

/-- The synthesis prompt of `_synthesis_node` (`chr(10)` is `"\n"`). -/
def synthesisPrompt (memory : List Message) (st : AgentState) : String :=
  let context :=
    if st.use_memory then
      "\n\nConversation History:\n" ++ ConversationMemory.get_context_string memory ++ "\n\n"
    else ""
  "As the Business Intelligence Orchestrator, synthesize the following findings from specialized agents into a comprehensive, actionable recommendation.\n\nOriginal Query: " ++ st.query ++ "\n" ++ context ++ "\nAgent Findings:\n\n" ++ String.intercalate "\n" (agentOutputs st) ++ "\n\nYour task:\n1. Identify key themes and insights across all agent analyses\n2. Highlight any conflicts or trade-offs between recommendations\n3. Provide a clear, prioritized action plan\n4. Offer a holistic strategic recommendation\n\nProvide an executive summary followed by detailed recommendations."

/-- Embeds `_synthesis_node`: a single un-caught GPT-5 wrapper call (an
exception here would propagate; the wrapper in fact never raises). -/
def synthesisNode (o : OrchOracles) (memory : List Message) (st : AgentState) :
    Except String AgentState :=
  match GPT5Wrapper.generate o.synthClient (synthesisPrompt memory st) with
  | Except.ok t => Except.ok { st with synthesis := t }
  | Except.error e => Except.error e

/-- The initial `AgentState` built by `orchestrate` (list fields reset,
`web_research` the falsy `{}`). -/
def initialState (query : String) (use_memory : Bool) : AgentState :=
  ⟨query, [], "", "", "", "", "", none, "", use_memory⟩

/-- The compiled linear graph: router, optional research synthesis,
parallel agents, synthesis. -/
def runPipeline (enable_rag : Bool) (rst : RouterState) (o : OrchOracles)
    (memory : List Message) (query : String) (use_memory : Bool) :
    Except String AgentState :=
  let st0 := initialState query use_memory
  let st1 := { st0 with agents_to_call := (routerNode rst o query).1 }
  let st2 :=
    if enable_rag then researchSynthesisNode enable_rag o.research st1 else st1
  match agentsParallelNode o st2 with
  | Except.error e => Except.error e
  | Except.ok st3 => synthesisNode o memory st3

/-- The result dictionary `orchestrate` returns. -/
structure OrchestrateResult where
  query : String
  agents_consulted : List String
  detailed_findings : List (String × String)
  recommendation : String
deriving DecidableEq, Repr

/-- Embeds `LangGraphOrchestrator.orchestrate`: add the user turn to
memory, run the graph, add the assistant turn, and package the result —
`detailed_findings` is built from the four fixed findings fields. -/
def orchestrate (enable_rag : Bool) (rst : RouterState) (o : OrchOracles)
    (memory : List Message) (max_messages : Nat) (query : String) (use_memory : Bool) :
    Except String (OrchestrateResult × List Message) :=
  let memory1 :=
    if use_memory then ConversationMemory.add_message max_messages memory "user" query
    else memory
  match runPipeline enable_rag rst o memory1 query use_memory with
  | Except.error e => Except.error e
  | Except.ok fin =>
    let memory2 :=
      if use_memory then
        ConversationMemory.add_message max_messages memory1 "assistant" fin.synthesis
      else memory1
    Except.ok (⟨query, fin.agents_to_call,
      [("market_analysis", fin.market_analysis),
       ("operations_audit", fin.operations_audit),
       ("financial_modeling", fin.financial_modeling),
       ("lead_generation", fin.lead_generation)],
      fin.synthesis⟩, memory2)

end LangGraph

/-! ## Theorems -/

/-! ### C9 — memory boundedness -/

theorem ConversationMemory.add_all_eq_drop (N : Nat) (turns : List Message) :
    ∀ acc : List Message, acc.length ≤ N →
      ConversationMemory.add_all N acc turns =
        (acc ++ turns).drop (acc.length + turns.length - N) := by
  induction turns with
  | nil =>
    intro acc hacc
    have h0 : acc.length + List.length ([] : List Message) - N = 0 := by
      simp only [List.length_nil]; omega
    simp only [ConversationMemory.add_all, List.foldl_nil, List.append_nil, h0, List.drop_zero]
  | cons t ts ih =>
    intro acc hacc
    have hstep : ConversationMemory.add_all N acc (t :: ts) =
        ConversationMemory.add_all N ((acc ++ [t]).drop ((acc ++ [t]).length - N)) ts := by
      simp [ConversationMemory.add_all, ConversationMemory.add_message]
    have hlen : ((acc ++ [t]).drop ((acc ++ [t]).length - N)).length
        = (acc.length + 1) - ((acc.length + 1) - N) := by
      simp [List.length_drop]
    have hle : ((acc ++ [t]).drop ((acc ++ [t]).length - N)).length ≤ N := by
      rw [hlen]; omega
    rw [hstep, ih _ hle, hlen]
    have hd1 : (acc ++ [t]).length - N ≤ (acc ++ [t]).length := by omega
    rw [← List.drop_append_of_le_length hd1, List.drop_drop]
    have harr : (acc ++ [t]) ++ ts = acc ++ t :: ts := by simp
    rw [harr]
    congr 1
    simp only [List.length_append, List.length_cons, List.length_nil]
    omega

/-- CLAIM C9: conversation memory is a bounded FIFO: starting from an
empty capacity-`N` memory (`N > 0`), after `N + k` `add_message` calls,
`get_messages()` holds exactly `N` entries — the `N` most recent turns in
oldest-to-newest order, with the `k` oldest evicted. -/
theorem C9_memory_bounded_fifo (N k : Nat) (turns : List Message)
    (hN : 0 < N) (hlen : turns.length = N + k) :
    ConversationMemory.add_all N [] turns = turns.drop k ∧
    (ConversationMemory.add_all N [] turns).length = N := by
  have h := ConversationMemory.add_all_eq_drop N turns [] (by simp)
  simp only [List.length_nil, List.nil_append, Nat.zero_add] at h
  have hk : turns.length - N = k := by omega
  rw [hk] at h
  refine ⟨h, ?_⟩
  rw [h, List.length_drop]
  omega

/-- Witness for C9 at `N = 2`, `k = 1`: three adds on a capacity-2 memory
keep the two most recent turns. -/
theorem C9_memory_bounded_fifo_witness :
    ConversationMemory.add_all 2 [] [⟨"user", "a"⟩, ⟨"assistant", "b"⟩, ⟨"user", "c"⟩] =
      [⟨"assistant", "b"⟩, ⟨"user", "c"⟩] ∧
    (ConversationMemory.add_all 2 []
      [⟨"user", "a"⟩, ⟨"assistant", "b"⟩, ⟨"user", "c"⟩]).length = 2 := by
  have h := C9_memory_bounded_fifo 2 1 [⟨"user", "a"⟩, ⟨"assistant", "b"⟩, ⟨"user", "c"⟩]
    (by decide) (by decide)
  exact ⟨by rw [h.1]; rfl, h.2⟩

/-! ### C7 — cache round-trip -/

/-- CLAIM C7: for every key, value and positive TTL, `set(k, v, ttl)` at
time `t0` followed by `get(k)` at time `t` returns the stored value when
`t` is strictly before the expiry `t0 + ttl`, and absent when `t` is at
or after it. -/
theorem C7_cache_roundtrip (store : FileCache.Store) (k v : String) (ttl t0 t : Nat)
    (httl : 0 < ttl) :
    (t < t0 + ttl → (FileCache.get (FileCache.set store k v ttl t0) k t).1 = some v) ∧
    (t0 + ttl ≤ t → (FileCache.get (FileCache.set store k v ttl t0) k t).1 = none) := by
  constructor <;> intro ht <;>
    simp only [FileCache.get, FileCache.set, List.lookup, beq_self_eq_true]
  · rw [if_pos ht]
  · rw [if_neg (by omega)]

/-- Witness for C7 with `ttl = 5`, written at `t0 = 100`: a read at 104
hits, a read at 105 (the expiry instant) is absent. -/
theorem C7_cache_roundtrip_witness :
    (FileCache.get (FileCache.set [] "k" "v" 5 100) "k" 104).1 = some "v" ∧
    (FileCache.get (FileCache.set [] "k" "v" 5 100) "k" 105).1 = none :=
  ⟨(C7_cache_roundtrip [] "k" "v" 5 100 104 (by decide)).1 (by decide),
   (C7_cache_roundtrip [] "k" "v" 5 100 105 (by decide)).2 (by decide)⟩

/-! ### C8 — cache key namespacing -/

/-- CLAIM C8: key derivation is deterministic in
`(category, parts, client namespace)`, and differing client namespaces
(two different configured clients, or configured versus unconfigured)
always produce different keys for identical category and parts. -/
theorem C8_cache_key_namespacing (hash : String → String) (cid1 cid2 pfx : String)
    (parts parts2 : List String) :
    (parts = parts2 →
      QueryCache.make_key hash (some cid1) pfx parts =
        QueryCache.make_key hash (some cid1) pfx parts2) ∧
    (cid1 ≠ "" → cid2 ≠ "" → cid1 ≠ cid2 →
      QueryCache.make_key hash (some cid1) pfx parts ≠
        QueryCache.make_key hash (some cid2) pfx parts) ∧
    (cid1 ≠ "" →
      QueryCache.make_key hash (some cid1) pfx parts ≠
        QueryCache.make_key hash none pfx parts) := by
  refine ⟨fun h => by rw [h], fun h1 h2 hne heq => ?_, fun h1 heq => ?_⟩
  · have hb1 : (cid1 == "") = false := by simpa using h1
    have hb2 : (cid2 == "") = false := by simpa using h2
    simp only [QueryCache.make_key, Py.truthyOptStr, hb1, hb2, Bool.not_false, if_pos,
      Option.getD_some] at heq
    have hdata := congrArg String.data heq
    simp only [String.data_append, List.append_assoc] at hdata
    exact hne (String.ext
      (List.append_cancel_right (List.append_cancel_left hdata)))
  · have hb1 : (cid1 == "") = false := by simpa using h1
    simp only [QueryCache.make_key, Py.truthyOptStr, hb1, Bool.not_false, if_pos,
      Bool.false_eq_true, if_false, Option.getD_some] at heq
    have hlen := congrArg String.length heq
    simp only [String.length_append] at hlen
    have h7 : String.length "client:" = 7 := rfl
    have h1' : String.length ":" = 1 := rfl
    rw [h7, h1'] at hlen
    omega

/-- Witness for C8 with the identity stand-in hash, clients "a" and "b",
category "agent". -/
theorem C8_cache_key_namespacing_witness :
    QueryCache.make_key (fun s => s) (some "a") "agent" ["q"] ≠
      QueryCache.make_key (fun s => s) (some "b") "agent" ["q"] ∧
    QueryCache.make_key (fun s => s) (some "a") "agent" ["q"] ≠
      QueryCache.make_key (fun s => s) none "agent" ["q"] :=
  ⟨(C8_cache_key_namespacing (fun s => s) "a" "b" "agent" ["q"] ["q"]).2.1
      (by decide) (by decide) (by decide),
   (C8_cache_key_namespacing (fun s => s) "a" "b" "agent" ["q"] ["q"]).2.2 (by decide)⟩

/-! ### C10 — falsy cached values on the get path -/

/-- COUNTEREXAMPLE for C10 as stated: cache the empty string under "k"
at time 0 with TTL 100, look it up at time 10 (well before expiry).  The
backend holds a live entry and `_get` increments the miss counter, but
the lookup does **not** return absent: it returns the stored empty
string itself (`some ""`), which only truthiness-based callers confuse
with absence. -/
theorem C10_counterexample :
    (FileCache.get (FileCache.set [] "k" "" 100 0) "k" 10).1 = some "" ∧
    QueryCache.get (some (FileCache.set [] "k" "" 100 0)) 10 ⟨0, 0, 0⟩ "k" =
      (some "", ⟨0, 1, 0⟩) := by
  constructor <;> rfl

/-- CLAIM C10 (amended): when the backend holds a live entry whose value
is the empty string, `_get` counts a miss (not a hit) and returns the
stored empty string unchanged — falsy values are treated as absent only
for the hit/miss statistics and by truthiness-based callers, not in the
returned value. -/
theorem C10_falsy_value_miss (store : FileCache.Store) (key : String) (now : Nat)
    (stats : QueryCache.Stats)
    (hlive : (FileCache.get store key now).1 = some "") :
    QueryCache.get (some store) now stats key =
      (some "", { stats with misses := stats.misses + 1 }) := by
  simp only [QueryCache.get, hlive, QueryCache.truthyVal]
  rfl

/-- Witness for C10 (amended) on the concrete store holding a live empty
string. -/
theorem C10_falsy_value_miss_witness :
    QueryCache.get (some (FileCache.set [] "k" "" 100 0)) 10 ⟨3, 4, 5⟩ "k" =
      (some "", ⟨3, 5, 5⟩) :=
  C10_falsy_value_miss (FileCache.set [] "k" "" 100 0) "k" 10 ⟨3, 4, 5⟩ rfl

/-! ### C4 — provider failures at the GPT-5 wrapper boundary -/

/-- COUNTEREXAMPLE for C4 as stated: when the underlying client call
raises (here with description "boom"), `GPT5Wrapper.generate` does not
raise — the `try/except Exception` at `src/gpt5_wrapper.py:14-20`
returns the failure as a **normal text result**
`"Error generating response: boom"` (an `Except.ok`, never an
`Except.error`). -/
theorem C4_counterexample :
    GPT5Wrapper.generate (fun _ => Except.error "boom") "prompt" =
      Except.ok "Error generating response: boom" := rfl

/-- CLAIM C4 (amended): at the GPT-5 provider call boundary, a failure of
the underlying client surfaces to the caller as a returned text result
carrying the string description, prefixed "Error generating response: ",
rather than as a raised exception.  (A successful client call returns
its text unchanged.) -/
theorem C4_error_returned_as_text (client : String → Except String String)
    (prompt e : String) (hfail : client prompt = Except.error e) :
    GPT5Wrapper.generate client prompt = Except.ok ("Error generating response: " ++ e) := by
  simp only [GPT5Wrapper.generate, hfail]

/-- Witness for C4 (amended) at a concrete failing client. -/
theorem C4_error_returned_as_text_witness :
    GPT5Wrapper.generate (fun _ => Except.error "rate limited") "p" =
      Except.ok ("Error generating response: " ++ "rate limited") :=
  C4_error_returned_as_text (fun _ => Except.error "rate limited") "p" "rate limited" rfl

/-! ### C3 — hybrid provider fallback -/

/-- COUNTEREXAMPLE for C3 as stated: in hybrid mode with the
DeepSeek-mapped worker type "market", when both the DeepSeek client and
the underlying GPT-5 client raise, the overall `UnifiedLLM.generate`
call does **not** raise: the fallback goes through
`GPT5Wrapper.generate`, whose catch-all turns the second failure into
the normal text result "Error generating response: boom". -/
theorem C3_counterexample :
    UnifiedLLM.generate "hybrid" (some "market")
      ⟨fun _ => Except.error "boom", fun _ => Except.error "ds down",
       fun _ => Except.error "ds down"⟩ "prompt" =
      Except.ok "Error generating response: boom" := rfl

/-- CLAIM C3 (amended): in hybrid mode, for every worker type mapped to
the (non-primary) DeepSeek provider, if the DeepSeek call raises then
the call is retried once against GPT-5: if the underlying GPT-5 client
succeeds the overall call returns its output; if the GPT-5 client also
raises, the overall call still returns normally, with the error text
produced by the GPT-5 wrapper's catch-all, rather than raising. -/
theorem C3_hybrid_fallback (a p t e e2 : String) (c : UnifiedLLM.ProviderClients)
    (ha : UnifiedLLM.hybridDeepseekAgents.contains a = true)
    (hds : UnifiedLLM.deepseekModel (some a) c p = Except.error e) :
    (c.gpt5client p = Except.ok t →
      UnifiedLLM.generate "hybrid" (some a) c p = Except.ok t) ∧
    (c.gpt5client p = Except.error e2 →
      UnifiedLLM.generate "hybrid" (some a) c p =
        Except.ok ("Error generating response: " ++ e2)) := by
  have hsel : UnifiedLLM.select_model "hybrid" (some a)
      = if UnifiedLLM.hybridDeepseekAgents.contains a then "deepseek" else "gpt5" := rfl
  have hprov : UnifiedLLM.select_model "hybrid" (some a) = "deepseek" := by
    rw [hsel, if_pos ha]
  constructor <;> intro hg <;>
    simp only [UnifiedLLM.generate, hprov, hds, GPT5Wrapper.generate, hg] <;> rfl

/-- Witness for C3 (amended): worker "financial", DeepSeek down; one leg
with a healthy GPT-5 client, one leg with both down. -/
theorem C3_hybrid_fallback_witness :
    UnifiedLLM.generate "hybrid" (some "financial")
      ⟨fun _ => Except.ok "gpt5 answer", fun _ => Except.error "timeout",
       fun _ => Except.error "timeout"⟩ "p" = Except.ok "gpt5 answer" ∧
    UnifiedLLM.generate "hybrid" (some "financial")
      ⟨fun _ => Except.error "down", fun _ => Except.error "timeout",
       fun _ => Except.error "timeout"⟩ "p" =
      Except.ok ("Error generating response: " ++ "down") :=
  ⟨(C3_hybrid_fallback "financial" "p" "gpt5 answer" "timeout" ""
      ⟨fun _ => Except.ok "gpt5 answer", fun _ => Except.error "timeout",
       fun _ => Except.error "timeout"⟩ rfl rfl).1 rfl,
   (C3_hybrid_fallback "financial" "p" "" "timeout" "down"
      ⟨fun _ => Except.error "down", fun _ => Except.error "timeout",
       fun _ => Except.error "timeout"⟩ rfl rfl).2 rfl⟩

/-! ### C2 — routing totality -/

theorem PrimaryOrchestrator.consulted_ne_nil (a : PrimaryOrchestrator.AgentsNeeded)
    (h : (a.market || a.operations || a.financial || a.leadgen) = true) :
    a.consulted ≠ [] := by
  cases a with
  | mk m o f l =>
    cases m <;> cases o <;> cases f <;> cases l <;>
      simp_all [PrimaryOrchestrator.AgentsNeeded.consulted]

theorem LangGraph.routerSemantic_ne_nil (client : String → Except String String)
    (jsonParse : String → Option (List String)) (q : String) :
    LangGraph.routerSemantic client jsonParse q ≠ [] := by
  unfold LangGraph.routerSemantic
  cases GPT5Wrapper.generate client (LangGraph.routing_prompt q) with
  | error e => simp [LangGraph.all_agents]
  | ok response =>
    simp only
    cases jsonParse (Py.strip (Py.replace (Py.replace (Py.strip response) "```json" "")
        "```" "")) with
    | none => simp [LangGraph.all_agents]
    | some agents =>
      simp only
      split
      · simp [LangGraph.all_agents]
      · next hne =>
        cases agents with
        | nil => simp at hne
        | cons a rest => simp

/-- COUNTEREXAMPLE for C2 as stated: under trained-classifier routing
(`use_ml_routing` armed, classifier loaded), a classifier that
successfully predicts the empty label list yields the empty routing
decision — `_router_node` installs `agents_to_call = []` without the
"all known workers" replacement the other two strategies apply. -/
theorem C2_counterexample :
    (LangGraph.routerNode ⟨true, true⟩
      ⟨Except.ok [], Except.ok (), fun _ => Except.ok "resp", fun _ => none,
       Except.ok "", Except.ok "", Except.ok "", Except.ok "", Except.ok "",
       Except.ok "", fun _ => Except.ok ""⟩ "q").1 = [] := rfl

/-- CLAIM C2 (amended): static-rules routing and semantic routing are
total — an empty underlying result is replaced by the full worker set,
so their decisions are never empty; but trained-classifier routing
passes a successful prediction through unchanged, so its decision is
empty exactly when the classifier predicts the empty set (classifier
exceptions fall back to the semantic path, which is total). -/
theorem C2_routing_totality (q : String) (client : String → Except String String)
    (jsonParse : String → Option (List String)) (rst : LangGraph.RouterState)
    (o : LangGraph.OrchOracles) (l : List String)
    (hml : rst.use_ml_routing = true) (hr : rst.ml_router = true)
    (hp : o.predict = Except.ok l) (hpp : o.predict_proba = Except.ok ()) :
    (PrimaryOrchestrator.determine_agents_needed q).consulted ≠ [] ∧
    LangGraph.routerSemantic client jsonParse q ≠ [] ∧
    (LangGraph.routerNode rst o q).1 = l := by
  refine ⟨?_, LangGraph.routerSemantic_ne_nil client jsonParse q, ?_⟩
  · simp only [PrimaryOrchestrator.determine_agents_needed]
    split
    · next h => exact PrimaryOrchestrator.consulted_ne_nil _ h
    · decide
  · simp [LangGraph.routerNode, hml, hr, hp, hpp]

/-- Witness for C2 (amended): concrete query, clients and an armed
classifier predicting `["market"]`. -/
theorem C2_routing_totality_witness :
    (PrimaryOrchestrator.determine_agents_needed "hello").consulted ≠ [] ∧
    LangGraph.routerSemantic (fun _ => Except.ok "resp") (fun _ => none) "hello" ≠ [] ∧
    (LangGraph.routerNode ⟨true, true⟩
      ⟨Except.ok ["market"], Except.ok (), fun _ => Except.ok "resp", fun _ => none,
       Except.ok "", Except.ok "", Except.ok "", Except.ok "", Except.ok "",
       Except.ok "", fun _ => Except.ok ""⟩ "hello").1 = ["market"] :=
  C2_routing_totality "hello" (fun _ => Except.ok "resp") (fun _ => none) ⟨true, true⟩
    ⟨Except.ok ["market"], Except.ok (), fun _ => Except.ok "resp", fun _ => none,
     Except.ok "", Except.ok "", Except.ok "", Except.ok "", Except.ok "",
     Except.ok "", fun _ => Except.ok ""⟩ ["market"] rfl rfl rfl rfl

/-! ### C6 — classifier failure handling across route calls -/

/-- Oracles for a route call whose classifier `predict` raises (the
semantic fallback then returns all agents, since `jsonParse` fails). -/
def c6FailOracles : LangGraph.OrchOracles :=
  ⟨Except.error "predict failed", Except.ok (), fun _ => Except.ok "resp", fun _ => none,
   Except.ok "", Except.ok "", Except.ok "", Except.ok "", Except.ok "",
   Except.ok "", fun _ => Except.ok ""⟩

/-- Oracles for a later route call whose classifier succeeds with
`["financial"]`. -/
def c6OkOracles : LangGraph.OrchOracles :=
  ⟨Except.ok ["financial"], Except.ok (), fun _ => Except.ok "resp", fun _ => none,
   Except.ok "", Except.ok "", Except.ok "", Except.ok "", Except.ok "",
   Except.ok "", fun _ => Except.ok ""⟩

/-- COUNTEREXAMPLE for C6 as stated: construct with the artifact present
and loading fine, make the first route call raise inside
`ml_router.predict`.  That call falls back to GPT-5 routing, but the
downgrade is not permanent: `_router_node` leaves `use_ml_routing` and
`ml_router` untouched, so the very next route call consults the
classifier again (and returns its answer `["financial"]`). -/
theorem C6_counterexample :
    (LangGraph.routerNode (LangGraph.ml_init true true (Except.ok ()) (Except.ok ()))
        c6FailOracles "q").1 = LangGraph.all_agents ∧
    (LangGraph.routerNode (LangGraph.ml_init true true (Except.ok ()) (Except.ok ()))
        c6FailOracles "q").2 = ⟨true, true⟩ ∧
    (LangGraph.routerNode
        (LangGraph.routerNode (LangGraph.ml_init true true (Except.ok ()) (Except.ok ()))
          c6FailOracles "q").2
        c6OkOracles "q").1 = ["financial"] :=
  ⟨rfl, rfl, rfl⟩

/-- CLAIM C6 (amended): only a missing artifact (or a failure while
loading it) at construction time permanently disables classifier
routing — every later route call then takes the semantic path.  A
classifier exception at route time degrades that call only: the call
falls back to semantic routing but the router state is returned
unchanged, so subsequent calls invoke the classifier again. -/
theorem C6_downgrade_scope (ctor load : Except String Unit)
    (rst : LangGraph.RouterState) (o o2 : LangGraph.OrchOracles) (q q2 : String)
    (e : String) (hfail : o.predict = Except.error e) :
    ((LangGraph.routerNode (LangGraph.ml_init true false ctor load) o2 q2).1 =
      LangGraph.routerSemantic o2.routerClient o2.jsonParse q2) ∧
    ((LangGraph.routerNode rst o q).1 =
      LangGraph.routerSemantic o.routerClient o.jsonParse q) ∧
    (LangGraph.routerNode rst o q).2 = rst := by
  have hml : LangGraph.ml_init true false ctor load = ⟨false, false⟩ := rfl
  refine ⟨by rw [hml]; rfl, ?_, ?_⟩ <;>
    · unfold LangGraph.routerNode
      split
      · simp only [hfail]
      · rfl

/-- Witness for C6 (amended) at concrete construction results and the
concrete failing-predict oracles. -/
theorem C6_downgrade_scope_witness :
    ((LangGraph.routerNode (LangGraph.ml_init true false (Except.ok ()) (Except.ok ()))
        c6OkOracles "q2").1 =
      LangGraph.routerSemantic c6OkOracles.routerClient c6OkOracles.jsonParse "q2") ∧
    ((LangGraph.routerNode ⟨true, true⟩ c6FailOracles "q").1 =
      LangGraph.routerSemantic c6FailOracles.routerClient c6FailOracles.jsonParse "q") ∧
    (LangGraph.routerNode ⟨true, true⟩ c6FailOracles "q").2 = ⟨true, true⟩ :=
  C6_downgrade_scope (Except.ok ()) (Except.ok ()) ⟨true, true⟩ c6FailOracles c6OkOracles
    "q" "q2" "predict failed" rfl

/-! ### C1 — shape of `detailed_findings` -/

/-- Oracles driving one concrete successful orchestration: the semantic
router picks only `["market"]`, the market agent answers "ok", synthesis
answers "final". -/
def c1Oracles : LangGraph.OrchOracles :=
  ⟨Except.ok [], Except.ok (), fun _ => Except.ok "[\"market\"]",
   fun s => if s == "[\"market\"]" then some ["market"] else none,
   Except.ok "", Except.ok "w", Except.ok "ok", Except.ok "x", Except.ok "x",
   Except.ok "x", fun _ => Except.ok "final"⟩

/-- COUNTEREXAMPLE for C1 as stated: a run that consults only the
worker "market" still returns a `detailed_findings` with the four fixed
keys — three entries for workers that were **not** consulted, and no
entry keyed by the consulted worker id "market" (its findings live
under the fixed key "market_analysis"). -/
theorem C1_counterexample :
    ((LangGraph.orchestrate false ⟨false, false⟩ c1Oracles [] 10 "q" false).map
        (fun p => p.1.agents_consulted)) = Except.ok ["market"] ∧
    ((LangGraph.orchestrate false ⟨false, false⟩ c1Oracles [] 10 "q" false).map
        (fun p => p.1.detailed_findings.map Prod.fst)) =
      Except.ok ["market_analysis", "operations_audit", "financial_modeling",
        "lead_generation"] ∧
    "market" ∉ ["market_analysis", "operations_audit", "financial_modeling",
        "lead_generation"] ∧
    "operations_audit" ∈ ["market_analysis", "operations_audit", "financial_modeling",
        "lead_generation"] ∧
    "operations" ∉ ["market"] := by
  refine ⟨rfl, rfl, by decide, by decide, by decide⟩

/-- CLAIM C1 (amended): whenever `orchestrate` returns (rather than
raises), its `detailed_findings` holds exactly the four fixed entries
`market_analysis`, `operations_audit`, `financial_modeling`,
`lead_generation`, in this order, regardless of which workers were
consulted; consulted workers fill their fixed slot and all other slots
hold the empty string. -/
theorem C1_findings_fixed_keys (enable_rag : Bool) (rst : LangGraph.RouterState)
    (o : LangGraph.OrchOracles) (memory : List Message) (max_messages : Nat)
    (query : String) (use_memory : Bool) (r : LangGraph.OrchestrateResult)
    (memory2 : List Message)
    (h : LangGraph.orchestrate enable_rag rst o memory max_messages query use_memory =
      Except.ok (r, memory2)) :
    r.detailed_findings.map Prod.fst =
      ["market_analysis", "operations_audit", "financial_modeling", "lead_generation"] := by
  simp only [LangGraph.orchestrate] at h
  split at h
  · exact absurd h (by simp)
  · simp only [Except.ok.injEq, Prod.mk.injEq] at h
    rw [← h.1]
    rfl

/-- Witness for C1 (amended) on the concrete run of `c1Oracles`. -/
theorem C1_findings_fixed_keys_witness :
    (⟨"q", ["market"],
      [("market_analysis", "ok"), ("operations_audit", ""), ("financial_modeling", ""),
       ("lead_generation", "")], "final"⟩ : LangGraph.OrchestrateResult).detailed_findings.map
        Prod.fst =
      ["market_analysis", "operations_audit", "financial_modeling", "lead_generation"] :=
  C1_findings_fixed_keys false ⟨false, false⟩ c1Oracles [] 10 "q" false _ [] rfl

/-! ### C5 — failed worker alongside a successful one -/

theorem errString_ne_empty (e : String) : ("Error: " ++ e) ≠ "" := by
  intro h
  have := congrArg String.length h
  simp only [String.length_append] at this
  have h7 : String.length "Error: " = 7 := rfl
  have h0 : String.length "" = 0 := rfl
  omega

/-- Oracles for the two-worker scenario: the market agent succeeds with
`m`, the operations agent raises `e`, synthesis answers `synthOut`. -/
def c5Oracles (m e w synthOut : String) : LangGraph.OrchOracles :=
  ⟨Except.ok [], Except.ok (), fun _ => Except.ok "", fun _ => none,
   Except.ok "", Except.ok w, Except.ok m, Except.error e, Except.ok "x",
   Except.ok "x", fun _ => Except.ok synthOut⟩

/-- COUNTEREXAMPLE for C5 as stated: dispatching `market` and
`operations` where operations raises "timeout" and market returns "ok"
does give the dispatcher map `{market_analysis: "ok",
operations_audit: "Error: timeout"}` and synthesis still runs — but the
error-bearing entry is **not** excluded from the synthesis prompt: the
prompt's `agent_outputs` blocks (the `Agent Findings` section) contain
`"OPERATIONS AUDIT:\nError: timeout"`, because `_synthesis_node` filters
only on non-emptiness and error strings are non-empty. -/
theorem C5_counterexample :
    LangGraph.executeAgentsParallel (c5Oracles "ok" "timeout" "w" "final")
      { LangGraph.initialState "q" false with agents_to_call := ["market", "operations"] } =
      Except.ok [("market_analysis", "ok"), ("operations_audit", "Error: " ++ "timeout")] ∧
    ((LangGraph.runPipeline false ⟨false, false⟩
        { c5Oracles "ok" "timeout" "w" "final" with
          routerClient := fun _ => Except.ok "[\"market\", \"operations\"]",
          jsonParse := fun s =>
            if s == "[\"market\", \"operations\"]" then some ["market", "operations"]
            else none } [] "q" false).map
      (fun st => (st.operations_audit, st.synthesis, LangGraph.agentOutputs st))) =
      Except.ok ("Error: timeout", "final",
        ["MARKET ANALYSIS:\nok", "OPERATIONS AUDIT:\nError: timeout"]) := by
  refine ⟨rfl, rfl⟩

/-- CLAIM C5 (amended): with two dispatched workers of which one raises,
the dispatcher maps the failing worker to `"Error: " ++ e` and the
succeeding one to its output; synthesis still runs; and the synthesis
prompt's `Agent Findings` section includes every non-empty entry —
error-bearing entries included — excluding only empty outputs. -/
theorem C5_error_entry_in_prompt (m e w synthOut q : String) (hm : m ≠ "") :
    LangGraph.executeAgentsParallel (c5Oracles m e w synthOut)
      { LangGraph.initialState q false with agents_to_call := ["market", "operations"] } =
      Except.ok [("market_analysis", m), ("operations_audit", "Error: " ++ e)] ∧
    ((LangGraph.agentsParallelNode (c5Oracles m e w synthOut)
        { LangGraph.initialState q false with
          agents_to_call := ["market", "operations"] }).map LangGraph.agentOutputs) =
      Except.ok ["MARKET ANALYSIS:\n" ++ m, "OPERATIONS AUDIT:\nError: " ++ e] ∧
    (((LangGraph.agentsParallelNode (c5Oracles m e w synthOut)
        { LangGraph.initialState q false with
          agents_to_call := ["market", "operations"] }).bind
      (LangGraph.synthesisNode (c5Oracles m e w synthOut) [])).map
        (fun st => st.synthesis)) = Except.ok synthOut := by
  have hexec : LangGraph.executeAgentsParallel (c5Oracles m e w synthOut)
      { LangGraph.initialState q false with agents_to_call := ["market", "operations"] } =
      Except.ok [("market_analysis", m), ("operations_audit", "Error: " ++ e)] := by
    simp [LangGraph.executeAgentsParallel, LangGraph.initialState, LangGraph.parallelOutputs,
      LangGraph.taskResult, c5Oracles]
  have hnode : LangGraph.agentsParallelNode (c5Oracles m e w synthOut)
      { LangGraph.initialState q false with agents_to_call := ["market", "operations"] } =
      Except.ok { LangGraph.initialState q false with
        agents_to_call := ["market", "operations"],
        market_analysis := m,
        operations_audit := "Error: " ++ e } := by
    simp only [LangGraph.agentsParallelNode, hexec]
    rfl
  refine ⟨hexec, ?_, ?_⟩
  · rw [hnode]
    simp only [Except.map]
    have hout : LangGraph.agentOutputs { LangGraph.initialState q false with
        agents_to_call := ["market", "operations"],
        market_analysis := m,
        operations_audit := "Error: " ++ e } =
        ["MARKET ANALYSIS:\n" ++ m, "OPERATIONS AUDIT:\nError: " ++ e] := by
      simp only [LangGraph.agentOutputs, LangGraph.initialState, hm, errString_ne_empty e,
        if_false, ite_false]
      rw [← String.append_assoc]
      simp [hm, errString_ne_empty e]
    rw [hout]
  · rw [hnode]
    rfl

/-- Witness for C5 (amended) at the concrete scenario of the claim. -/
theorem C5_error_entry_in_prompt_witness :
    LangGraph.executeAgentsParallel (c5Oracles "ok" "timeout" "w" "final")
      { LangGraph.initialState "q" false with agents_to_call := ["market", "operations"] } =
      Except.ok [("market_analysis", "ok"), ("operations_audit", "Error: " ++ "timeout")] ∧
    ((LangGraph.agentsParallelNode (c5Oracles "ok" "timeout" "w" "final")
        { LangGraph.initialState "q" false with
          agents_to_call := ["market", "operations"] }).map LangGraph.agentOutputs) =
      Except.ok ["MARKET ANALYSIS:\n" ++ "ok", "OPERATIONS AUDIT:\nError: " ++ "timeout"] ∧
    (((LangGraph.agentsParallelNode (c5Oracles "ok" "timeout" "w" "final")
        { LangGraph.initialState "q" false with
          agents_to_call := ["market", "operations"] }).bind
      (LangGraph.synthesisNode (c5Oracles "ok" "timeout" "w" "final") [])).map
        (fun st => st.synthesis)) = Except.ok "final" :=
  C5_error_entry_in_prompt "ok" "timeout" "w" "final" "q" (by decide)
